import Mathlib

/-!
Shallow embedding of `llama_index_supervisor/supervisor.py` (plus the parts of
`handoff.py` that are imported there but not present in the sources, which are
modelled from the spec where noted).

Conventions:
* Python `ChatMessage` is a record of role, content and the two
  `additional_kwargs` entries the supervisor ever writes (`tool_call_id`,
  `name`).
* Python dicts keyed by strings are association lists; a dict comprehension
  with duplicate keys keeps the *last* binding, which `dictGet` reproduces.
* `ChatMemoryBuffer` objects are modelled as references (`Buffer`) into a heap
  of chat stores, because the aliasing behaviour of pydantic's
  `model_copy()` (a shallow copy whose `chat_store` field is the *same*
  object as the original's) is observable in `_run_agent`.
* Fallible Python code (an uncaught exception) is `Option`/`Except`.
* `ChatMemoryBuffer.get()` / `get_all()` are both modelled as reading the
  whole store; token-limit truncation of `get()` is a model-provider concern
  the spec places out of scope.
-/

/-- One conversation turn, as `ChatMessage` is used by `supervisor.py`:
role, content, and the `tool_call_id` / `name` entries of
`additional_kwargs` (absent on plain user/assistant/system rows). -/
structure ChatMessage where
  role : String
  content : String
  tool_call_id : Option String := none
  name : Option String := none
deriving Repr, DecidableEq, BEq

/-- A model-emitted tool call (`ToolSelection`): target name, call id and
keyword arguments (kwargs are string-valued here; only `task` / `reason`
are ever read by the supervisor). -/
structure ToolSelection where
  tool_id : String
  tool_name : String
  tool_kwargs : List (String × String)
deriving Repr, DecidableEq, BEq

/-- A registered tool (`BaseTool`): its metadata name and its capability.
Calling the tool either returns the `ToolOutput.content` text or raises,
modelled as `Except.error` carrying the exception text. -/
structure PyTool where
  name : String
  call : List (String × String) → Except String String

/-- A delegate sub-agent: its name and its capability. Per the spec's agent
contract (`run(context, memory) -> updated memory`), running the agent
appends `runAppend history` to the memory it was handed, where `history`
is the chat history it received. -/
structure Agent where
  name : String
  runAppend : List ChatMessage → List ChatMessage

/-- Python `dict.get` over an association list built left to right, where a
later binding for the same key overwrites an earlier one (dict
comprehension semantics). -/
def dictGet {α : Type} : List (String × α) → String → Option α
  | [], _ => none
  | (k, v) :: rest, key =>
    match dictGet rest key with
    | some v2 => some v2
    | none => if k == key then some v else none

/-- Python `str.removeprefix`: drop the prefix when present, else return the
string unchanged (computed on the character list). -/
def removeprefixStr (s pre : String) : String :=
  if pre.data.isPrefixOf s.data then ⟨s.data.drop pre.data.length⟩ else s

/-- Python string formatting of an optional value: `None` prints as "None". -/
def pyStrOfOpt : Option String → String
  | none => "None"
  | some s => s

/-- A `ChatMemoryBuffer` object as `supervisor.py` observes it: every memory
operation goes through the pair (chat_store object, chat_store key), here
collapsed into one reference into the heap of stores. -/
structure Buffer where
  storeRef : Nat
deriving Repr, DecidableEq

/-- The heap of chat stores: each reference names an ordered message list. -/
structure Heap where
  stores : Nat → List ChatMessage

/-- `memory.get()` / `memory.get_all()`: the ordered message list of the
buffer's store. -/
def Heap.read (h : Heap) (b : Buffer) : List ChatMessage :=
  h.stores b.storeRef

/-- Overwrite the store a buffer points at. -/
def Heap.setStore (h : Heap) (b : Buffer) (msgs : List ChatMessage) : Heap :=
  ⟨fun r => if r = b.storeRef then msgs else h.stores r⟩

/-- `memory.put(msg)` / `memory.aput(msg)`: append one message to the
buffer's store. -/
def Heap.put (h : Heap) (b : Buffer) (m : ChatMessage) : Heap :=
  h.setStore b (h.read b ++ [m])

/-- Append a batch of messages in order (`for msg in messages: memory.put(msg)`). -/
def Heap.putMany (h : Heap) (b : Buffer) (msgs : List ChatMessage) : Heap :=
  msgs.foldl (fun acc m => acc.put b m) h

/-- `SimpleChatStore.delete_message(key, idx=0)`: remove the first message of
the store (a no-op when the store is empty, matching the store's guard). -/
def Heap.deleteIdx0 (h : Heap) (b : Buffer) : Heap :=
  h.setStore b ((h.read b).drop 1)

/-- `memory.model_copy()` in `_run_agent`, supervisor.py line 329. Pydantic's
`model_copy()` without `deep=True` is a *shallow* copy: the new
`ChatMemoryBuffer` object's `chat_store` field is the same object as the
original's and `chat_store_key` the same string, so every memory operation
on the copy acts on the same underlying store. At the level of observable
store access the copy is therefore the same reference. -/
def model_copy (b : Buffer) : Buffer :=
  ⟨b.storeRef⟩

/-- Modelled from the spec: `_normalize_agent_name` is imported from
`handoff.py`, which is not among the sources. Spec section 3 says agent
names are "unique, normalized — e.g. lowercase/underscored" and section 9
leaves the exact rule open, so the spec's example rule is used: lowercase
and replace spaces with underscores. -/
def normalizeAgentName (s : String) : String :=
  (s.toLower).replace " " "_"

/-- Modelled from the spec: `create_handoff_tool` is imported from
`handoff.py`, which is not among the sources. Spec section 4.1: one
synthetic handoff tool per agent, "whose name is a deterministic transform
of the agent's name (e.g. `transfer_to_<agent>`)". Its capability is never
invoked by the supervisor paths modelled here. -/
def create_handoff_tool (agent : Agent) : PyTool :=
  { name := "transfer_to_" ++ normalizeAgentName agent.name,
    call := fun _ => Except.ok "handoff" }

/-- Modelled from the spec: `create_handoff_back_messages` is imported from
`handoff.py`, which is not among the sources. Spec section 4.4 step f: "a
synthetic pair of handoff-back Messages (role `tool`, content documenting
that control returned from the sub-agent to the supervisor)". -/
def create_handoff_back_messages (agent_name supervisor_name : String) : List ChatMessage :=
  [ { role := "tool",
      content := "Transferring back from " ++ agent_name ++ " to " ++ supervisor_name },
    { role := "tool",
      content := "Successfully transferred back to " ++ supervisor_name } ]

/-- The statically configured part of a `Supervisor` instance, as produced by
`__init__` / `_setup_agents` / `_setup_tools`. -/
structure SupervisorCfg where
  name : String
  systemPrompt : List ChatMessage
  tools_by_name : List (String × PyTool)
  agent_tool_names : List String
  agents_by_name : List (String × Agent)
  output_mode : String
  add_handoff_back_messages : Bool

/-- The per-conversation mutable state a turn acts on: the heap of chat
stores, the buffer currently bound to the workflow context key
`"memory"`, and (for specification purposes) the log of executed
sub-agent runs — one entry `(agent name, chat history handed to the run)`
per `agent.run` call. -/
structure TurnState where
  heap : Heap
  ctxMemory : Buffer
  runs : List (String × List ChatMessage)

/-- `_create_tool_error_message` / the inline tool-result messages:
role "tool", given content, `additional_kwargs` carrying the call id and
tool name. -/
def tool_message (content tool_call_id tool_name : String) : ChatMessage :=
  { role := "tool", content := content,
    tool_call_id := some tool_call_id, name := some tool_name }

/-- The body of the `_process_regular_tools` loop for one tool call:
resolve via `tools_by_name`, else "Tool <name> does not exist"; invoke
inside try/except, converting a raise into
"Encountered error in tool call: <e>". -/
def process_one_regular (cfg : SupervisorCfg) (tc : ToolSelection) : ChatMessage :=
  match dictGet cfg.tools_by_name tc.tool_name with
  | none => tool_message ("Tool " ++ tc.tool_name ++ " does not exist") tc.tool_id tc.tool_name
  | some tool =>
    match tool.call tc.tool_kwargs with
    | Except.ok content => tool_message content tc.tool_id tc.tool_name
    | Except.error e =>
        tool_message ("Encountered error in tool call: " ++ e) tc.tool_id tc.tool_name

/-- `_process_regular_tools`: one result message appended per request, in
input order (the Python loop mutates `tool_msgs`; here the produced batch
is returned and concatenated by the caller). -/
def process_regular_tools (cfg : SupervisorCfg) (regular_tools : List ToolSelection) :
    List ChatMessage :=
  regular_tools.map (process_one_regular cfg)

/-- `_split_tool_calls`: handoffs are the calls whose name matches some agent
tool's name; regular tools are the calls not members of the handoff list. -/
def split_tool_calls (cfg : SupervisorCfg) (tool_calls : List ToolSelection) :
    List ToolSelection × List ToolSelection :=
  let agent_handoffs := tool_calls.filter
    (fun tc => cfg.agent_tool_names.any (fun atn => tc.tool_name == atn))
  let regular_tools := tool_calls.filter (fun tc => !(agent_handoffs.contains tc))
  (agent_handoffs, regular_tools)

/-- `_update_memory`: flush the accumulated messages into the context's
memory and clear the list; a no-op on an empty list. -/
def update_memory (st : TurnState) (messages : List ChatMessage) :
    TurnState × List ChatMessage :=
  if messages.isEmpty then (st, messages)
  else ({ st with heap := st.heap.putMany st.ctxMemory messages }, [])

/-- `_run_agent`: copy the context memory with `model_copy()` (shallow!),
hand the agent `memory.get()` as chat history, let it append its turns to
the copied buffer, then merge back according to `output_mode`.
`full_history`: delete index 0 of the resulting store ("remove agent's
system prompt" — note the corresponding insertion at lines 324-328 of the
source is commented out) and rebind the context memory to the copy.
`last_message`: append `memo.get_all()[-1]` to the original buffer
(`none` models the IndexError Python would raise on an empty store). -/
def run_agent (cfg : SupervisorCfg) (st : TurnState) (agent : Agent) : Option TurnState :=
  let memory := st.ctxMemory
  let new_ctx_memory := model_copy memory
  let chat_history := st.heap.read memory
  let h1 := st.heap.putMany new_ctx_memory (agent.runAppend chat_history)
  let runs2 := st.runs ++ [(agent.name, chat_history)]
  if cfg.output_mode == "full_history" then
    let memo := new_ctx_memory
    some { heap := h1.deleteIdx0 memo, ctxMemory := memo, runs := runs2 }
  else if cfg.output_mode == "last_message" then
    let memo := new_ctx_memory
    match (h1.read memo).getLast? with
    | some last_message =>
        some { heap := h1.put memory last_message, ctxMemory := memory, runs := runs2 }
    | none => none
  else
    some { heap := h1, ctxMemory := memory, runs := runs2 }

/-- The success bookkeeping message of `_process_agent_handoff`:
"Successfully transferred to <agent> for task: <task>, reason: <reason>". -/
def success_message (agent_name : String) (handoff : ToolSelection) : ChatMessage :=
  tool_message
    ("Successfully transferred to " ++ agent_name ++ " for task: "
      ++ pyStrOfOpt (dictGet handoff.tool_kwargs "task") ++ ", reason: "
      ++ pyStrOfOpt (dictGet handoff.tool_kwargs "reason"))
    handoff.tool_id handoff.tool_name

/-- `_process_agent_handoff`: strip `transfer_to_` from the tool name, look
the agent up; on a miss append an "Agent <tool name> does not exist" error
and stop. Otherwise append the success message, flush pending messages
into memory, run the agent, and (when configured) append and flush the
handoff-back pair. -/
def process_agent_handoff (cfg : SupervisorCfg) (st : TurnState)
    (handoff : ToolSelection) (tool_msgs : List ChatMessage) :
    Option (TurnState × List ChatMessage) :=
  let handoff_agent := removeprefixStr handoff.tool_name "transfer_to_"
  match dictGet cfg.agents_by_name handoff_agent with
  | none =>
      some (st, tool_msgs ++
        [tool_message ("Agent " ++ handoff.tool_name ++ " does not exist")
          handoff.tool_id handoff.tool_name])
  | some agent =>
      let msgs1 := tool_msgs ++ [success_message agent.name handoff]
      let flushed := update_memory st msgs1
      match run_agent cfg flushed.1 agent with
      | none => none
      | some st2 =>
          if cfg.add_handoff_back_messages then
            let msgs3 := flushed.2 ++ create_handoff_back_messages agent.name cfg.name
            some (update_memory st2 msgs3)
          else
            some (st2, flushed.2)

/-- `_process_agent_handoffs`: more than one handoff requested → one
"Multiple agent handoff tools selected: ... - please select only one."
error per requested handoff and no execution; exactly one → execute it;
zero → no-op. -/
def process_agent_handoffs (cfg : SupervisorCfg) (st : TurnState)
    (agent_handoffs : List ToolSelection) (tool_msgs : List ChatMessage) :
    Option (TurnState × List ChatMessage) :=
  if agent_handoffs.length > 1 then
    let handoff_names := agent_handoffs.map ToolSelection.tool_name
    some (st, tool_msgs ++ agent_handoffs.map (fun handoff =>
      tool_message
        ("Multiple agent handoff tools selected: "
          ++ String.intercalate ", " handoff_names ++ " - please select only one.")
        handoff.tool_id handoff.tool_name))
  else
    match agent_handoffs with
    | [handoff] => process_agent_handoff cfg st handoff tool_msgs
    | _ => some (st, tool_msgs)

/-- `handle_tool_calls`: split the turn's calls, dispatch the regular ones,
process the handoffs, then flush any messages still pending into memory. -/
def handle_tool_calls (cfg : SupervisorCfg) (st : TurnState)
    (tool_calls : List ToolSelection) : Option TurnState :=
  let sp := split_tool_calls cfg tool_calls
  let tool_msgs := process_regular_tools cfg sp.2
  match process_agent_handoffs cfg st sp.1 tool_msgs with
  | none => none
  | some (st1, msgs) => some (update_memory st1 msgs).1

/-- The `system_prompt` argument forms Python callers can pass to
`Supervisor.__init__`. -/
inductive SystemPromptArg where
  | nonePy
  | strPy (s : String)
  | listStrPy (l : List String)
  | chatMessagePy (m : ChatMessage)
  | listChatPy (l : List ChatMessage)
deriving Repr, DecidableEq

/-- Python truthiness of the `system_prompt` argument (`if system_prompt:`):
`None` and empty strings/lists are falsy; a pydantic `ChatMessage` object
is truthy. -/
def SystemPromptArg.truthy : SystemPromptArg → Bool
  | .nonePy => false
  | .strPy s => !(s == "")
  | .listStrPy l => !l.isEmpty
  | .chatMessagePy _ => true
  | .listChatPy l => !l.isEmpty

/-- The `system_prompt` normalization of `Supervisor.__init__` lines 58-70.
A truthy non-str argument reaches `isinstance(system_prompt, list[str])`,
and `isinstance` applied to a parameterized generic like `list[str]`
raises `TypeError` in Python, so every truthy list (of either element
type) and every bare `ChatMessage` aborts construction; a falsy argument
yields no system messages; a nonempty `str` yields one system message. -/
def parse_system_prompt (sp : SystemPromptArg) : Except String (List ChatMessage) :=
  if sp.truthy then
    match sp with
    | .strPy s => Except.ok [{ role := "system", content := s }]
    | _ => Except.error "TypeError: isinstance() argument 2 cannot be a parameterized generic"
  else
    Except.ok []

/-- `_setup_agents` loop: normalize each agent name, raise `ValueError` on a
duplicate, else record the binding. -/
def setup_agents_loop (acc : List (String × Agent)) :
    List Agent → Except String (List (String × Agent))
  | [] => Except.ok acc
  | agent :: rest =>
    let normalized_name := normalizeAgentName agent.name
    if (dictGet acc normalized_name).isSome then
      Except.error ("Duplicate agent name found: " ++ normalized_name
        ++ ". Agent names must be unique.")
    else
      setup_agents_loop (acc ++ [(normalized_name, agent)]) rest

/-- `_setup_agents`: build `agents_by_name`, failing on duplicates. -/
def setup_agents (agents : List Agent) : Except String (List (String × Agent)) :=
  setup_agents_loop [] agents

/-- `_setup_tools`: synthesize one handoff tool per agent, extend the tool
list with them, and build the name lookup with a dict comprehension —
duplicate names are silently accepted, the later entry overwriting the
earlier. Returns (tools_by_name, agent tool names). -/
def setup_tools (tools : List PyTool) (agents : List Agent) :
    List (String × PyTool) × List String :=
  let agent_tools := agents.map create_handoff_tool
  let all_tools := tools ++ agent_tools
  (all_tools.map (fun t => (t.name, t)), agent_tools.map PyTool.name)

/-- `Supervisor.__init__`: the three asserts in source order, then
`system_prompt` normalization, then `_setup_agents`, then `_setup_tools`.
`llm_is_function_calling` stands for
`llm.metadata.is_function_calling_model`. -/
def supervisor_init (llm_is_function_calling : Bool) (agents : List Agent)
    (tools : List PyTool) (name : String) (system_prompt : SystemPromptArg)
    (add_handoff_back_messages : Bool) (output_mode : String) :
    Except String SupervisorCfg :=
  if !llm_is_function_calling then
    Except.error "Supervisor only supports function calling LLMs"
  else if !(output_mode == "full_history" || output_mode == "last_message") then
    Except.error "output_mode must be either full_history or last_message"
  else if !(agents.length + tools.length > 0) then
    Except.error "At least one agent or tool must be provided"
  else
    match parse_system_prompt system_prompt with
    | Except.error e => Except.error e
    | Except.ok sys =>
      match setup_agents agents with
      | Except.error e => Except.error e
      | Except.ok agents_by_name =>
        let tl := setup_tools tools agents
        Except.ok
          { name := name, systemPrompt := sys, tools_by_name := tl.1,
            agent_tool_names := tl.2, agents_by_name := agents_by_name,
            output_mode := output_mode,
            add_handoff_back_messages := add_handoff_back_messages }

/-- `_get_llm_response` line 157: the chat history submitted to the model is
`self.system_prompt + chat_history`. -/
def llm_query_history (cfg : SupervisorCfg) (chat_history : List ChatMessage) :
    List ChatMessage :=
  cfg.systemPrompt ++ chat_history

/-! ### Concrete example data used by witnesses and counterexamples -/

/-- A user message seeding the supervisor's memory. -/
def exMsgU : ChatMessage := { role := "user", content := "hello" }

/-- First message a sub-agent appends during its run. -/
def exMsgA1 : ChatMessage := { role := "assistant", content := "working" }

/-- Second message a sub-agent appends during its run. -/
def exMsgA2 : ChatMessage := { role := "assistant", content := "done" }

/-- A heap with one store (reference 0) holding the single user message. -/
def exHeap : Heap := ⟨fun r => if r = 0 then [exMsgU] else []⟩

/-- The supervisor's memory buffer in the examples. -/
def exBuf : Buffer := ⟨0⟩

/-- An agent that appends two messages to the memory it is handed. -/
def exAgentBob : Agent := ⟨"bob", fun _ => [exMsgA1, exMsgA2]⟩

/-- An agent that appends one message to the memory it is handed. -/
def exAgentOne : Agent := ⟨"bob", fun _ => [exMsgA1]⟩

/-- A regular tool that succeeds. -/
def exToolAdd : PyTool := ⟨"add", fun _ => Except.ok "4"⟩

/-- A regular tool whose capability raises. -/
def exToolBoom : PyTool := ⟨"boom", fun _ => Except.error "division by zero"⟩

/-- A configuration with two regular tools and no agents. -/
def exCfgTools : SupervisorCfg :=
  { name := "supervisor", systemPrompt := [], tools_by_name := [("add", exToolAdd), ("boom", exToolBoom)],
    agent_tool_names := [], agents_by_name := [], output_mode := "full_history",
    add_handoff_back_messages := true }

/-- A configuration with one agent (bob, appending one message),
`full_history` merge-back. -/
def exCfgFull : SupervisorCfg :=
  { name := "supervisor", systemPrompt := [], tools_by_name := [],
    agent_tool_names := ["transfer_to_bob"], agents_by_name := [("bob", exAgentOne)],
    output_mode := "full_history", add_handoff_back_messages := true }

/-- A configuration with one agent (bob, appending two messages),
`last_message` merge-back. -/
def exCfgLast : SupervisorCfg :=
  { name := "supervisor", systemPrompt := [], tools_by_name := [],
    agent_tool_names := ["transfer_to_bob"], agents_by_name := [("bob", exAgentBob)],
    output_mode := "last_message", add_handoff_back_messages := true }

/-- The turn state in the examples: memory holds one user message, no runs. -/
def exStart : TurnState := ⟨exHeap, exBuf, []⟩

/-- A successful regular tool call. -/
def exCallAdd : ToolSelection := ⟨"call_1", "add", [("a", "2"), ("b", "2")]⟩

/-- A call to an unregistered tool. -/
def exCallMissing : ToolSelection := ⟨"call_2", "send_email", []⟩

/-- A call to the raising tool. -/
def exCallBoom : ToolSelection := ⟨"call_3", "boom", []⟩

/-- A three-request, no-handoff turn. -/
def exCalls3 : List ToolSelection := [exCallAdd, exCallMissing, exCallBoom]

/-- A handoff call targeting agent bob with task and reason kwargs. -/
def exHoBob : ToolSelection := ⟨"call_4", "transfer_to_bob", [("task", "fix"), ("reason", "expert")]⟩

/-- A handoff call whose target agent is not registered. -/
def exHoCarol : ToolSelection := ⟨"call_5", "transfer_to_carol", []⟩

/-! ### General lemmas about the embedded operations -/

theorem read_setStore_self (h : Heap) (b : Buffer) (msgs : List ChatMessage) :
    (h.setStore b msgs).read b = msgs := by
  simp [Heap.setStore, Heap.read]

theorem read_put_self (h : Heap) (b : Buffer) (m : ChatMessage) :
    (h.put b m).read b = h.read b ++ [m] := by
  simp [Heap.put, read_setStore_self]

theorem putMany_cons (h : Heap) (b : Buffer) (m : ChatMessage) (rest : List ChatMessage) :
    h.putMany b (m :: rest) = (h.put b m).putMany b rest := rfl

theorem read_putMany_self (h : Heap) (b : Buffer) (msgs : List ChatMessage) :
    (h.putMany b msgs).read b = h.read b ++ msgs := by
  induction msgs generalizing h with
  | nil => simp [Heap.putMany]
  | cons m rest ih => rw [putMany_cons, ih, read_put_self]; simp

theorem model_copy_eq (b : Buffer) : model_copy b = b := rfl

theorem update_memory_ctxMemory (st : TurnState) (msgs : List ChatMessage) :
    (update_memory st msgs).1.ctxMemory = st.ctxMemory := by
  unfold update_memory; split <;> rfl

theorem update_memory_runs (st : TurnState) (msgs : List ChatMessage) :
    (update_memory st msgs).1.runs = st.runs := by
  unfold update_memory; split <;> rfl

theorem update_memory_read (st : TurnState) (msgs : List ChatMessage) :
    (update_memory st msgs).1.heap.read st.ctxMemory = st.heap.read st.ctxMemory ++ msgs := by
  unfold update_memory
  by_cases hm : msgs.isEmpty
  · rw [if_pos hm]
    rw [List.isEmpty_iff] at hm
    simp [hm]
  · rw [if_neg hm]
    simp [read_putMany_self]

theorem process_one_regular_id (cfg : SupervisorCfg) (tc : ToolSelection) :
    (process_one_regular cfg tc).tool_call_id = some tc.tool_id := by
  unfold process_one_regular
  split
  · rfl
  · split <;> rfl

theorem process_regular_tools_ids (cfg : SupervisorCfg) (l : List ToolSelection) :
    (process_regular_tools cfg l).map ChatMessage.tool_call_id
      = l.map (fun tc => some tc.tool_id) := by
  induction l with
  | nil => rfl
  | cons tc rest ih =>
      show ((process_one_regular cfg tc :: process_regular_tools cfg rest).map
        ChatMessage.tool_call_id) = _
      simp only [List.map_cons, process_one_regular_id, ih]

theorem split_snd_of_no_handoffs (cfg : SupervisorCfg) (tool_calls : List ToolSelection)
    (h : (split_tool_calls cfg tool_calls).1 = []) :
    (split_tool_calls cfg tool_calls).2 = tool_calls := by
  simp only [split_tool_calls] at h ⊢
  rw [h]
  simp [List.contains]

theorem dictGet_append_last {α : Type} (l : List (String × α)) (k : String) (v : α) :
    dictGet (l ++ [(k, v)]) k = some v := by
  induction l with
  | nil => simp [dictGet]
  | cons p rest ih => cases p; simp [dictGet, ih]

/-- `_run_agent` always completes when the supervisor's memory is nonempty,
and records exactly one sub-agent run whose chat history is the memory
content at call time. -/
theorem run_agent_total (cfg : SupervisorCfg) (st : TurnState) (agent : Agent)
    (h : st.heap.read st.ctxMemory ≠ []) :
    ∃ st2, run_agent cfg st agent = some st2 ∧
      st2.runs = st.runs ++ [(agent.name, st.heap.read st.ctxMemory)] := by
  unfold run_agent
  cases hf : cfg.output_mode == "full_history" with
  | true =>
    simp only [hf, if_true]
    exact ⟨_, rfl, rfl⟩
  | false =>
    cases hl : cfg.output_mode == "last_message" with
    | false =>
      simp only [hf, hl, Bool.false_eq_true, if_false]
      exact ⟨_, rfl, rfl⟩
    | true =>
      have hr : (st.heap.putMany (model_copy st.ctxMemory)
          (agent.runAppend (st.heap.read st.ctxMemory))).read (model_copy st.ctxMemory)
          = st.heap.read st.ctxMemory ++ agent.runAppend (st.heap.read st.ctxMemory) :=
        read_putMany_self st.heap st.ctxMemory _
      have hne : (st.heap.putMany (model_copy st.ctxMemory)
          (agent.runAppend (st.heap.read st.ctxMemory))).read (model_copy st.ctxMemory) ≠ [] := by
        rw [hr]
        intro hcon
        exact h (List.append_eq_nil.mp hcon).1
      cases hlast : (st.heap.putMany (model_copy st.ctxMemory)
          (agent.runAppend (st.heap.read st.ctxMemory))).read (model_copy st.ctxMemory)
          |>.getLast? with
      | none => exact absurd (List.getLast?_eq_none_iff.mp hlast) hne
      | some last =>
        simp only [hf, hl, Bool.false_eq_true, if_false, if_true, hlast]
        exact ⟨_, rfl, rfl⟩

/-- `_process_agent_handoffs` on a single-element handoff list is exactly
`_process_agent_handoff` on that element. -/
theorem pah_singleton (cfg : SupervisorCfg) (st : TurnState) (ho : ToolSelection)
    (tool_msgs : List ChatMessage) :
    process_agent_handoffs cfg st [ho] tool_msgs
      = process_agent_handoff cfg st ho tool_msgs := rfl

/-- A single handoff whose target resolves: the handoff completes, exactly one
sub-agent run is recorded, and the chat history handed to that run is the
memory at entry extended with the pending messages and the success
bookkeeping message — i.e. the merge into Shared Memory happened before
the run. -/
theorem pah_single_known (cfg : SupervisorCfg) (st : TurnState) (ho : ToolSelection)
    (tool_msgs : List ChatMessage) (agent : Agent)
    (hres : dictGet cfg.agents_by_name (removeprefixStr ho.tool_name "transfer_to_")
      = some agent) :
    ∃ st2 msgs2, process_agent_handoffs cfg st [ho] tool_msgs = some (st2, msgs2) ∧
      st2.runs = st.runs ++ [(agent.name,
        st.heap.read st.ctxMemory ++ (tool_msgs ++ [success_message agent.name ho]))] := by
  have hemp : (tool_msgs ++ [success_message agent.name ho]).isEmpty = false := by
    cases tool_msgs <;> rfl
  have hupd : update_memory st (tool_msgs ++ [success_message agent.name ho])
      = (⟨st.heap.putMany st.ctxMemory (tool_msgs ++ [success_message agent.name ho]),
          st.ctxMemory, st.runs⟩, []) := by
    unfold update_memory
    rw [hemp]
    simp
  have hne : ((⟨st.heap.putMany st.ctxMemory (tool_msgs ++ [success_message agent.name ho]),
      st.ctxMemory, st.runs⟩ : TurnState)).heap.read st.ctxMemory ≠ [] := by
    show (st.heap.putMany st.ctxMemory (tool_msgs ++ [success_message agent.name ho])).read
      st.ctxMemory ≠ []
    rw [read_putMany_self]
    intro hc
    have h2 := (List.append_eq_nil.mp hc).2
    have h3 := (List.append_eq_nil.mp h2).2
    cases h3
  obtain ⟨st2, hrun, hruns⟩ := run_agent_total cfg
    ⟨st.heap.putMany st.ctxMemory (tool_msgs ++ [success_message agent.name ho]),
      st.ctxMemory, st.runs⟩ agent hne
  have hread : ((⟨st.heap.putMany st.ctxMemory (tool_msgs ++ [success_message agent.name ho]),
      st.ctxMemory, st.runs⟩ : TurnState)).heap.read st.ctxMemory
      = st.heap.read st.ctxMemory ++ (tool_msgs ++ [success_message agent.name ho]) :=
    read_putMany_self st.heap st.ctxMemory _
  rw [pah_singleton]
  simp only [process_agent_handoff, hres]
  rw [hupd]
  simp only [hrun]
  rw [hread] at hruns
  cases hb : cfg.add_handoff_back_messages with
  | true =>
    simp only [if_true]
    refine ⟨(update_memory st2 ([] ++ create_handoff_back_messages agent.name cfg.name)).1,
      (update_memory st2 ([] ++ create_handoff_back_messages agent.name cfg.name)).2, rfl, ?_⟩
    rw [update_memory_runs, hruns]
  | false =>
    simp only [Bool.false_eq_true, if_false]
    exact ⟨st2, [], rfl, hruns⟩

/-! ### Claim theorems -/

/-- C1: refuted as stated — the memory handed to the sub-agent by
`_run_agent` is `memory.model_copy()`, a pydantic shallow copy whose chat
store is the supervisor's own store. Starting from a supervisor memory
holding only the user message, appending one message through the copy
changes what the supervisor's canonical buffer reads: the copy is not
structurally independent and mutations are visible before any merge. -/
theorem c1_model_copy_shares_store :
    exHeap.read exBuf = [exMsgU] ∧
    (exHeap.put (model_copy exBuf) exMsgA1).read exBuf = [exMsgU, exMsgA1] :=
  ⟨rfl, rfl⟩

/-- C2: refuted as stated — under `output_mode = full_history`, `_run_agent`
deletes index 0 of the sub-agent's resulting store even though the
synthetic system-prompt insertion is commented out, so the row removed is
the conversation's real first message. Here the supervisor memory is the
single user message and the sub-agent appends one assistant message: the
sub-agent's resulting memory is `[exMsgU, exMsgA1]`, no synthetic row was
injected, yet the supervisor ends with `[exMsgA1]` — the user message
is gone. -/
theorem c2_full_history_deletes_first_user_message :
    exMsgU.role = "user" ∧
    exHeap.read exBuf = [exMsgU] ∧
    (run_agent exCfgFull exStart exAgentOne).map (fun s => s.heap.read s.ctxMemory)
      = some [exMsgA1] :=
  ⟨rfl, rfl, rfl⟩

/-- C7: refuted as stated — under `output_mode = last_message`, because the
sub-agent works on the shallow `model_copy()` sharing the supervisor's
store, both messages the sub-agent appends are already in the
supervisor's memory when `_run_agent` additionally appends the final
message again: starting from one message the supervisor ends with four
(growth 3, including a duplicate of the final message), not with the
claimed growth of exactly one message. -/
theorem c7_last_message_memory_grows_by_more_than_one :
    exHeap.read exBuf = [exMsgU] ∧
    (run_agent exCfgLast exStart exAgentBob).map (fun s => s.heap.read s.ctxMemory)
      = some [exMsgU, exMsgA1, exMsgA2, exMsgA2] :=
  ⟨rfl, rfl⟩

/-- C10: refuted as stated — `Supervisor.__init__` evaluates
`isinstance(system_prompt, list[str])` for every truthy non-`str`
argument, and `isinstance` on a parameterized generic raises `TypeError`,
so passing a list of system prompts (the "many system Messages" form)
aborts construction instead of being accepted. -/
theorem c10_list_system_prompt_raises_typeerror :
    parse_system_prompt (SystemPromptArg.listStrPy ["a", "b"])
      = Except.error "TypeError: isinstance() argument 2 cannot be a parameterized generic" ∧
    supervisor_init true [] [⟨"ping", fun _ => Except.ok "pong"⟩] "supervisor"
      (SystemPromptArg.listStrPy ["a", "b"]) true "full_history"
      = Except.error "TypeError: isinstance() argument 2 cannot be a parameterized generic" :=
  ⟨rfl, rfl⟩

/-- C6: counterexample to the claim as stated — registering two tools that
share the resolved name "ping" does not fail at construction:
`_setup_tools` builds its lookup with a dict comprehension and accepts
the duplicate silently. -/
theorem c6_counterexample_duplicate_tool_names_accepted :
    (supervisor_init true []
      [⟨"ping", fun _ => Except.ok "a"⟩, ⟨"ping", fun _ => Except.ok "b"⟩]
      "supervisor" SystemPromptArg.nonePy true "full_history").isOk = true :=
  rfl

/-- C6 amended: only two *agents* whose normalized names collide make
construction fail with the duplicate-name error; two tools (or a tool and
an agent-derived handoff tool) sharing a resolved name are accepted
silently, the later registration shadowing the earlier one in the
name lookup. -/
theorem c6_amended_only_agent_duplicates_fail (a1 a2 : Agent) (rest : List Agent)
    (t1 t2 : PyTool) (nm : String)
    (hag : normalizeAgentName a1.name = normalizeAgentName a2.name)
    (ht : t1.name = t2.name) :
    (∃ e, setup_agents (a1 :: a2 :: rest) = Except.error e) ∧
    (supervisor_init true [] [t1, t2] nm SystemPromptArg.nonePy true "full_history").isOk
      = true ∧
    dictGet (setup_tools [t1, t2] []).1 t1.name = some t2 := by
  refine ⟨⟨"Duplicate agent name found: " ++ normalizeAgentName a2.name
    ++ ". Agent names must be unique.", ?_⟩, rfl, ?_⟩
  · simp [setup_agents, setup_agents_loop, dictGet, hag]
  · simp [setup_tools, dictGet, ht]

/-- `_process_agent_handoffs` with no handoff requested is a no-op. -/
theorem pah_nil (cfg : SupervisorCfg) (st : TurnState) (tool_msgs : List ChatMessage) :
    process_agent_handoffs cfg st [] tool_msgs = some (st, tool_msgs) := rfl

/-- C3: for a turn whose requests contain no handoffs, handling the turn
appends exactly one result message per request to the supervisor's
memory, in request order, each carrying its request's call id; no
sub-agent run executes. -/
theorem c3_regular_dispatch_one_result_per_request (cfg : SupervisorCfg) (st : TurnState)
    (tool_calls : List ToolSelection)
    (h : (split_tool_calls cfg tool_calls).1 = []) :
    ∃ st2, handle_tool_calls cfg st tool_calls = some st2 ∧
      st2.ctxMemory = st.ctxMemory ∧
      st2.runs = st.runs ∧
      st2.heap.read st.ctxMemory
        = st.heap.read st.ctxMemory ++ process_regular_tools cfg tool_calls ∧
      (process_regular_tools cfg tool_calls).length = tool_calls.length ∧
      (process_regular_tools cfg tool_calls).map ChatMessage.tool_call_id
        = tool_calls.map (fun tc => some tc.tool_id) := by
  have h2 := split_snd_of_no_handoffs cfg tool_calls h
  refine ⟨(update_memory st (process_regular_tools cfg tool_calls)).1, ?_, ?_, ?_, ?_, ?_, ?_⟩
  · simp only [handle_tool_calls]
    rw [h, h2, pah_nil]
  · exact update_memory_ctxMemory st _
  · exact update_memory_runs st _
  · exact update_memory_read st _
  · simp [process_regular_tools]
  · exact process_regular_tools_ids cfg tool_calls

/-- C4: the dispatcher is total — every request yields exactly one result
message and `_process_regular_tools` keeps one message per request; an
unresolved name yields content "Tool (name) does not exist", and a raising
capability yields content "Encountered error in tool call: (message)". -/
theorem c4_dispatcher_error_messages (cfg : SupervisorCfg)
    (regular_tools : List ToolSelection) (tc : ToolSelection) (hmem : tc ∈ regular_tools) :
    process_one_regular cfg tc ∈ process_regular_tools cfg regular_tools ∧
    (process_regular_tools cfg regular_tools).length = regular_tools.length ∧
    (dictGet cfg.tools_by_name tc.tool_name = none →
      process_one_regular cfg tc
        = tool_message ("Tool " ++ tc.tool_name ++ " does not exist")
            tc.tool_id tc.tool_name) ∧
    (∀ tool e, dictGet cfg.tools_by_name tc.tool_name = some tool →
      tool.call tc.tool_kwargs = Except.error e →
      process_one_regular cfg tc
        = tool_message ("Encountered error in tool call: " ++ e)
            tc.tool_id tc.tool_name) := by
  refine ⟨List.mem_map_of_mem _ hmem, by simp [process_regular_tools], ?_, ?_⟩
  · intro hn
    simp [process_one_regular, hn]
  · intro tool e hs he
    simp [process_one_regular, hs, he]

/-- C5: a turn requesting two or more handoffs executes no sub-agent run (the
state is returned unchanged) and produces one correlated "multiple agent
handoff tools selected" error message per requested handoff, in request
order. -/
theorem c5_multiple_handoffs_all_error_no_runs (cfg : SupervisorCfg) (st : TurnState)
    (agent_handoffs : List ToolSelection) (tool_msgs : List ChatMessage)
    (h : 1 < agent_handoffs.length) :
    ∃ msgs, process_agent_handoffs cfg st agent_handoffs tool_msgs
        = some (st, tool_msgs ++ msgs) ∧
      msgs.length = agent_handoffs.length ∧
      msgs.map ChatMessage.tool_call_id
        = agent_handoffs.map (fun ho => some ho.tool_id) ∧
      ∀ m ∈ msgs, m.content = "Multiple agent handoff tools selected: "
        ++ String.intercalate ", " (agent_handoffs.map ToolSelection.tool_name)
        ++ " - please select only one." := by
  refine ⟨agent_handoffs.map (fun handoff =>
      tool_message ("Multiple agent handoff tools selected: "
        ++ String.intercalate ", " (agent_handoffs.map ToolSelection.tool_name)
        ++ " - please select only one.") handoff.tool_id handoff.tool_name),
    ?_, ?_, ?_, ?_⟩
  · unfold process_agent_handoffs
    rw [if_pos h]
  · simp
  · simp [List.map_map, Function.comp, tool_message]
  · intro m hm
    obtain ⟨ho, _, rfl⟩ := List.mem_map.mp hm
    rfl

/-- C8: a single handoff whose stripped target name resolves to no registered
agent executes no sub-agent run (the state is unchanged) and yields
exactly one correlated error message "Agent (tool name) does not exist". -/
theorem c8_unknown_agent_error_no_run (cfg : SupervisorCfg) (st : TurnState)
    (ho : ToolSelection) (tool_msgs : List ChatMessage)
    (h : dictGet cfg.agents_by_name (removeprefixStr ho.tool_name "transfer_to_") = none) :
    process_agent_handoffs cfg st [ho] tool_msgs
      = some (st, tool_msgs ++
          [tool_message ("Agent " ++ ho.tool_name ++ " does not exist")
            ho.tool_id ho.tool_name]) := by
  rw [pah_singleton]
  simp only [process_agent_handoff, h]

/-- C9: a turn whose requests split into exactly one handoff targeting a
known agent executes exactly one sub-agent run, and the chat history that
run receives is the supervisor memory already extended with this turn's
regular tool results and the correlated success message naming the agent
and the requested task and reason. -/
theorem c9_single_handoff_one_run_after_merge (cfg : SupervisorCfg) (st : TurnState)
    (tool_calls : List ToolSelection) (ho : ToolSelection) (agent : Agent)
    (hsplit : (split_tool_calls cfg tool_calls).1 = [ho])
    (hres : dictGet cfg.agents_by_name (removeprefixStr ho.tool_name "transfer_to_")
      = some agent) :
    ∃ st2, handle_tool_calls cfg st tool_calls = some st2 ∧
      st2.runs = st.runs ++ [(agent.name,
        st.heap.read st.ctxMemory
          ++ (process_regular_tools cfg (split_tool_calls cfg tool_calls).2
            ++ [success_message agent.name ho]))] := by
  obtain ⟨st1, msgs1, heq, hruns⟩ := pah_single_known cfg st ho
    (process_regular_tools cfg (split_tool_calls cfg tool_calls).2) agent hres
  simp only [handle_tool_calls]
  rw [hsplit, heq]
  exact ⟨_, rfl, by rw [update_memory_runs, hruns]⟩

/-- C3 witness: three requests (a succeeding tool, an unregistered name, a
raising tool), no handoff among them. -/
theorem c3_witness :
    (split_tool_calls exCfgTools exCalls3).1 = [] ∧
    (∃ st2, handle_tool_calls exCfgTools exStart exCalls3 = some st2 ∧
      st2.ctxMemory = exStart.ctxMemory ∧
      st2.runs = exStart.runs ∧
      st2.heap.read exStart.ctxMemory
        = exStart.heap.read exStart.ctxMemory ++ process_regular_tools exCfgTools exCalls3 ∧
      (process_regular_tools exCfgTools exCalls3).length = exCalls3.length ∧
      (process_regular_tools exCfgTools exCalls3).map ChatMessage.tool_call_id
        = exCalls3.map (fun tc => some tc.tool_id)) :=
  ⟨rfl, c3_regular_dispatch_one_result_per_request exCfgTools exStart exCalls3 rfl⟩

/-- C4 witness: the unregistered "send_email" call and the raising "boom"
call produce exactly the specified error contents. -/
theorem c4_witness :
    exCallMissing ∈ exCalls3 ∧
    (process_one_regular exCfgTools exCallMissing).content = "Tool send_email does not exist" ∧
    (process_one_regular exCfgTools exCallBoom).content
      = "Encountered error in tool call: division by zero" ∧
    (process_one_regular exCfgTools exCallMissing ∈ process_regular_tools exCfgTools exCalls3 ∧
      (process_regular_tools exCfgTools exCalls3).length = exCalls3.length ∧
      (dictGet exCfgTools.tools_by_name exCallMissing.tool_name = none →
        process_one_regular exCfgTools exCallMissing
          = tool_message ("Tool " ++ exCallMissing.tool_name ++ " does not exist")
              exCallMissing.tool_id exCallMissing.tool_name) ∧
      (∀ tool e, dictGet exCfgTools.tools_by_name exCallMissing.tool_name = some tool →
        tool.call exCallMissing.tool_kwargs = Except.error e →
        process_one_regular exCfgTools exCallMissing
          = tool_message ("Encountered error in tool call: " ++ e)
              exCallMissing.tool_id exCallMissing.tool_name)) :=
  ⟨List.Mem.tail _ (List.Mem.head _), rfl, rfl,
    c4_dispatcher_error_messages exCfgTools exCalls3 exCallMissing
      (List.Mem.tail _ (List.Mem.head _))⟩

/-- C5 witness: two handoff requests in one turn. -/
theorem c5_witness :
    1 < ([exHoBob, exHoCarol] : List ToolSelection).length ∧
    (∃ msgs, process_agent_handoffs exCfgFull exStart [exHoBob, exHoCarol] []
        = some (exStart, [] ++ msgs) ∧
      msgs.length = ([exHoBob, exHoCarol] : List ToolSelection).length ∧
      msgs.map ChatMessage.tool_call_id
        = ([exHoBob, exHoCarol] : List ToolSelection).map (fun ho => some ho.tool_id) ∧
      ∀ m ∈ msgs, m.content = "Multiple agent handoff tools selected: "
        ++ String.intercalate ", "
            (([exHoBob, exHoCarol] : List ToolSelection).map ToolSelection.tool_name)
        ++ " - please select only one.") :=
  ⟨by decide,
    c5_multiple_handoffs_all_error_no_runs exCfgFull exStart [exHoBob, exHoCarol] [] (by decide)⟩

/-- C6 witness: two agents both named "bob" and two tools both named "add". -/
theorem c6_witness :
    normalizeAgentName exAgentBob.name = normalizeAgentName exAgentOne.name ∧
    exToolAdd.name = (⟨"add", fun _ => Except.ok "8"⟩ : PyTool).name ∧
    ((∃ e, setup_agents [exAgentBob, exAgentOne] = Except.error e) ∧
      (supervisor_init true [] [exToolAdd, ⟨"add", fun _ => Except.ok "8"⟩] "supervisor"
        SystemPromptArg.nonePy true "full_history").isOk = true ∧
      dictGet (setup_tools [exToolAdd, ⟨"add", fun _ => Except.ok "8"⟩] []).1 exToolAdd.name
        = some ⟨"add", fun _ => Except.ok "8"⟩) :=
  ⟨rfl, rfl,
    c6_amended_only_agent_duplicates_fail exAgentBob exAgentOne []
      exToolAdd ⟨"add", fun _ => Except.ok "8"⟩ "supervisor" rfl rfl⟩

/-- C8 witness: one handoff to "transfer_to_carol" in a registry with no
agents. -/
theorem c8_witness :
    dictGet exCfgTools.agents_by_name (removeprefixStr exHoCarol.tool_name "transfer_to_")
      = none ∧
    process_agent_handoffs exCfgTools exStart [exHoCarol] []
      = some (exStart, [] ++
          [tool_message ("Agent " ++ exHoCarol.tool_name ++ " does not exist")
            exHoCarol.tool_id exHoCarol.tool_name]) :=
  ⟨rfl, c8_unknown_agent_error_no_run exCfgTools exStart exHoCarol [] rfl⟩

/-- C9 witness: one handoff to the registered agent "bob" with task and reason
kwargs. -/
theorem c9_witness :
    (split_tool_calls exCfgFull [exHoBob]).1 = [exHoBob] ∧
    dictGet exCfgFull.agents_by_name (removeprefixStr exHoBob.tool_name "transfer_to_")
      = some exAgentOne ∧
    (∃ st2, handle_tool_calls exCfgFull exStart [exHoBob] = some st2 ∧
      st2.runs = exStart.runs ++ [(exAgentOne.name,
        exStart.heap.read exStart.ctxMemory
          ++ (process_regular_tools exCfgFull (split_tool_calls exCfgFull [exHoBob]).2
            ++ [success_message exAgentOne.name exHoBob]))]) :=
  ⟨rfl, rfl,
    c9_single_handoff_one_run_after_merge exCfgFull exStart [exHoBob] exHoBob exAgentOne rfl rfl⟩
